import Mathlib

/-!
Verification of the operation-dispatch core of the `node-jira-cloud-action`
GitHub Action (`src/main.js`).

The JavaScript source is shallowly embedded as follows:
* JSON values are the inductive `Json` (numbers restricted to integers, which
  covers every number the program itself puts in a body or inspects).
* The external HTTP client (`getJson` / `postJson` / `putJson`, each returning
  `\x7bstatusCode, result\x7d`) is an oracle: a list of `HttpResponse`s consumed in
  call order.  Each pipeline also records the `HttpRequest`s it issued.
* The JavaScript builtin `JSON.parse` is an external collaborator and is
  passed in as a `JsonParser` oracle; its `.error` carries the parser message.
* CI-runner inputs (`core.getInput`) are a total map `Inputs` from input name
  to the (trimmed) string value, `""` denoting an absent input; a `required`
  input that is absent makes `getRequiredInput` fail, as `@actions/core` does.
* Outputs (`core.setOutput`), the failure flag (`core.setFailed`) and the
  issued calls are collected in `RunEffects`.
* JavaScript property access `v.k` (used as `response.result.id` etc.) throws
  a `TypeError` when the receiver is `null` and yields `undefined` on a
  missing key or a primitive receiver; `Json.getProp` mirrors this with
  `Except` for the throw and `Option` for `undefined`.
-/

namespace JiraAction

/-- JSON values, as produced by parsing a response body.  Numbers are modelled
as integers (the program only ever writes the integer `1` and never reads a
number). -/
inductive Json where
  | null : Json
  | bool : Bool → Json
  | num : Int → Json
  | str : String → Json
  | arr : List Json → Json
  | obj : List (String × Json) → Json

/-- Lower-case hexadecimal digit, for `JSON.stringify` control-character
escapes. -/
def hexDigit (n : Nat) : Char :=
  if n < 10 then Char.ofNat (48 + n) else Char.ofNat (87 + n)

/-- One character of a JSON string literal, escaped as `JSON.stringify`
escapes it. -/
def escapeChar (c : Char) : String :=
  if c = '"' then "\\\""
  else if c = '\\' then "\\\\"
  else if c = '\n' then "\\n"
  else if c = '\r' then "\\r"
  else if c = '\t' then "\\t"
  else if c.toNat = 8 then "\\b"
  else if c.toNat = 12 then "\\f"
  else if c.toNat < 32 then
    "\\u00" ++ String.singleton (hexDigit (c.toNat / 16)) ++
      String.singleton (hexDigit (c.toNat % 16))
  else String.singleton c

/-- A JSON string literal: quotes around the escaped characters. -/
def quoteString (s : String) : String :=
  "\"" ++ String.join (s.data.map escapeChar) ++ "\""

mutual

/-- `JSON.stringify`, as the program applies it to response bodies and to the
`data` field of a result. -/
def Json.stringify : Json → String
  | Json.null => "null"
  | Json.bool b => if b then "true" else "false"
  | Json.num n => toString n
  | Json.str s => quoteString s
  | Json.arr xs => "[" ++ Json.stringifyArr xs ++ "]"
  | Json.obj kvs => "\x7b" ++ Json.stringifyObj kvs ++ "\x7d"

/-- Comma-separated serialization of array elements. -/
def Json.stringifyArr : List Json → String
  | [] => ""
  | [x] => Json.stringify x
  | x :: y :: xs => Json.stringify x ++ "," ++ Json.stringifyArr (y :: xs)

/-- Comma-separated serialization of object entries. -/
def Json.stringifyObj : List (String × Json) → String
  | [] => ""
  | [(k, v)] => quoteString k ++ ":" ++ Json.stringify v
  | (k, v) :: p :: kvs =>
      quoteString k ++ ":" ++ Json.stringify v ++ "," ++ Json.stringifyObj (p :: kvs)

end

/-- JavaScript truthiness of a JSON value, as tested by
`if (response.issueKey)` / `if (response.issueId)`. -/
def Json.truthy : Json → Bool
  | Json.null => false
  | Json.bool b => b
  | Json.num n => n != 0
  | Json.str s => s != ""
  | Json.arr _ => true
  | Json.obj _ => true

/-- Truthiness of a possibly-`undefined` JavaScript value (`none` is
`undefined`). -/
def truthyOpt : Option Json → Bool
  | none => false
  | some v => v.truthy

/-- JavaScript property access `v.k`: a `TypeError` when the receiver is
`null`; `undefined` (`none`) on a missing key or on a non-null primitive
receiver (the program only reads the keys `"key"` and `"id"`, which no
primitive provides). -/
def Json.getProp : Json → String → Except String (Option Json)
  | Json.null, k =>
      Except.error ("Cannot read properties of null (reading " ++ quoteString k ++ ")")
  | Json.obj kvs, k => Except.ok (kvs.lookup k)
  | _, _ => Except.ok none

/-- The JavaScript object spread `\x7b...a, ...b\x7d` on association lists:
keys of `a` keep their position but take `b`'s value on collision; keys only
in `b` are appended in order. -/
def spreadMerge (a b : List (String × Json)) : List (String × Json) :=
  (a.map fun p =>
    match b.lookup p.1 with
    | some v => (p.1, v)
    | none => p) ++
  b.filter fun p => (a.lookup p.1).isNone

/-- The JavaScript object spread `\x7b...a, ...v\x7d` for an arbitrary spread
value `v`: objects merge key by key, arrays and strings spread their indices
as keys, other primitives contribute nothing. -/
def jsSpread (a : List (String × Json)) : Json → List (String × Json)
  | Json.obj kvs => spreadMerge a kvs
  | Json.arr xs => spreadMerge a (xs.enum.map fun p => (toString p.1, p.2))
  | Json.str s =>
      spreadMerge a (s.data.enum.map fun p => (toString p.1, Json.str (String.singleton p.2)))
  | _ => a

/-- HTTP method of a call issued by a pipeline. -/
inductive Method where
  | get : Method
  | post : Method
  | put : Method
deriving DecidableEq

/-- One HTTP call as issued: method, URL, JSON body (`none` for GET) and the
headers passed along. -/
structure HttpRequest where
  method : Method
  url : String
  body : Option Json
  headers : List (String × String)

/-- What the external client hands back for one call:
`\x7bstatusCode, result\x7d`. -/
structure HttpResponse where
  statusCode : Nat
  result : Json

/-- The uniform result record every pipeline produces
(`\x7bissueKey?, issueId?, data\x7d`); `none` is an absent / `undefined`
field. -/
structure OperationResult where
  issueKey : Option Json
  issueId : Option Json
  data : Json

/-- CI-runner inputs: name to (trimmed) string value, `""` for absent. -/
abbrev Inputs := String → String

/-- The `JSON.parse` builtin, as an oracle; the error carries the parser
message. -/
abbrev JsonParser := String → Except String Json

/-- The default headers set once in `run` and passed to every call. -/
def defaultHeaders : List (String × String) :=
  [("Content-Type", "application/json"), ("Accept", "application/json")]

/-- `core.getInput(name, \x7brequired: true\x7d)`: fails when the input is
absent (empty). -/
def getRequiredInput (inp : Inputs) (name : String) : Except String String :=
  if inp name = "" then Except.error ("Input required and not supplied: " ++ name)
  else Except.ok (inp name)

/-- Consume the next oracle response; an exhausted oracle is a network-level
exception (any message would do — the program never inspects it). -/
def takeResponse (client : List HttpResponse) :
    Except String (HttpResponse × List HttpResponse) :=
  match client with
  | [] => Except.error "socket hang up"
  | r :: rest => Except.ok (r, rest)

/-- The failure test every pipeline applies to a status code:
`statusCode < 200 || statusCode >= 300`. -/
def statusNotOk (n : Nat) : Bool :=
  decide (n < 200) || decide (300 ≤ n)

/-- The shared `fields_json` block of `createIssue`/`updateIssue`: when the
input is present, `JSON.parse` it and spread the result over the fields built
so far, turning a parse failure into `Invalid fields_json: <message>`. -/
def mergeFieldsJson (parse : JsonParser) (fieldsJson : String)
    (fields : List (String × Json)) : Except String (List (String × Json)) :=
  if fieldsJson = "" then Except.ok fields
  else
    match parse fieldsJson with
    | Except.ok extra => Except.ok (jsSpread fields extra)
    | Except.error m => Except.error ("Invalid fields_json: " ++ m)

/-- The fields object `createIssue` builds before the `fields_json` merge
(src/main.js:101–116): the base three, plus `description` when that input is
present.  (The validated required values equal `inp name`, so the builder
reads the inputs directly.) -/
def createIssueFields (inp : Inputs) : List (String × Json) :=
  let baseFields : List (String × Json) :=
    [("project", Json.obj [("key", Json.str (inp "project_key"))]),
     ("issuetype", Json.obj [("name", Json.str (inp "issue_type"))]),
     ("summary", Json.str (inp "summary"))]
  if inp "description" ≠ ""
    then baseFields ++ [("description", Json.str (inp "description"))]
  else baseFields

/-- The call half of `createIssue` (src/main.js:128–146): POST the fields,
check the status, read `key`/`id` off the response body. -/
def createIssueCall (fields : List (String × Json)) (baseUrl : String)
    (client : List HttpResponse) : Except String OperationResult × List HttpRequest :=
  let url := baseUrl ++ "/rest/api/3/issue"
  let req : HttpRequest :=
    ⟨Method.post, url, some (Json.obj [("fields", Json.obj fields)]), defaultHeaders⟩
  match takeResponse client with
  | Except.error e => (Except.error e, [req])
  | Except.ok (response, _) =>
    if statusNotOk response.statusCode then
      (Except.error ("Failed to create issue: " ++ toString response.statusCode ++
        " " ++ response.result.stringify), [req])
    else
      match response.result.getProp "key" with
      | Except.error e => (Except.error e, [req])
      | Except.ok key =>
        match response.result.getProp "id" with
        | Except.error e => (Except.error e, [req])
        | Except.ok id => (Except.ok ⟨key, id, response.result⟩, [req])

/-- `createIssue` (src/main.js:93–147): required inputs, body building with
the `fields_json` merge, then the POST. -/
def createIssue (inp : Inputs) (parse : JsonParser) (baseUrl : String)
    (client : List HttpResponse) : Except String OperationResult × List HttpRequest :=
  match getRequiredInput inp "project_key", getRequiredInput inp "issue_type",
        getRequiredInput inp "summary" with
  | Except.ok _, Except.ok _, Except.ok _ =>
    match mergeFieldsJson parse (inp "fields_json") (createIssueFields inp) with
    | Except.error e => (Except.error e, [])
    | Except.ok fields => createIssueCall fields baseUrl client
  | Except.error e, _, _ => (Except.error e, [])
  | _, Except.error e, _ => (Except.error e, [])
  | _, _, Except.error e => (Except.error e, [])

/-- The fields object `updateIssue` starts from (src/main.js:163–170): empty,
plus `description` when that input is present. -/
def updateInitialFields (inp : Inputs) : List (String × Json) :=
  if inp "description" ≠ "" then [("description", Json.str (inp "description"))] else []

/-- The call half of `updateIssue` (src/main.js:182–204): PUT the fields,
check the status, then GET the same issue URL and build the result from that
second response. -/
def updateIssueCall (issueKey : String) (fields : List (String × Json))
    (baseUrl : String) (client : List HttpResponse) :
    Except String OperationResult × List HttpRequest :=
  let url := baseUrl ++ "/rest/api/3/issue/" ++ issueKey
  let req : HttpRequest :=
    ⟨Method.put, url, some (Json.obj [("fields", Json.obj fields)]), defaultHeaders⟩
  match takeResponse client with
  | Except.error e => (Except.error e, [req])
  | Except.ok (response, rest) =>
    if statusNotOk response.statusCode then
      (Except.error ("Failed to update issue: " ++ toString response.statusCode ++
        " " ++ response.result.stringify), [req])
    else
      let getReq : HttpRequest := ⟨Method.get, url, none, defaultHeaders⟩
      match takeResponse rest with
      | Except.error e => (Except.error e, [req, getReq])
      | Except.ok (getResponse, _) =>
        match getResponse.result.getProp "id" with
        | Except.error e => (Except.error e, [req, getReq])
        | Except.ok id =>
          (Except.ok ⟨some (Json.str issueKey), id, getResponse.result⟩, [req, getReq])

/-- `updateIssue` (src/main.js:157–204): required input, body building with
the `fields_json` merge, then the PUT + read-back GET. -/
def updateIssue (inp : Inputs) (parse : JsonParser) (baseUrl : String)
    (client : List HttpResponse) : Except String OperationResult × List HttpRequest :=
  match getRequiredInput inp "issue_key" with
  | Except.error e => (Except.error e, [])
  | Except.ok issueKey =>
    match mergeFieldsJson parse (inp "fields_json") (updateInitialFields inp) with
    | Except.error e => (Except.error e, [])
    | Except.ok fields => updateIssueCall issueKey fields baseUrl client

/-- `transitionIssue` (src/main.js:214–250): POST the transition id, check the
status, then GET the issue and build the result from that second response. -/
def transitionIssue (inp : Inputs) (baseUrl : String)
    (client : List HttpResponse) : Except String OperationResult × List HttpRequest :=
  match getRequiredInput inp "issue_key", getRequiredInput inp "transition_id" with
  | Except.ok issueKey, Except.ok transitionId =>
    let body := Json.obj [("transition", Json.obj [("id", Json.str transitionId)])]
    let url := baseUrl ++ "/rest/api/3/issue/" ++ issueKey ++ "/transitions"
    let req : HttpRequest := ⟨Method.post, url, some body, defaultHeaders⟩
    match takeResponse client with
    | Except.error e => (Except.error e, [req])
    | Except.ok (response, rest) =>
      if statusNotOk response.statusCode then
        (Except.error ("Failed to transition issue: " ++ toString response.statusCode ++
          " " ++ response.result.stringify), [req])
      else
        let getReq : HttpRequest :=
          ⟨Method.get, baseUrl ++ "/rest/api/3/issue/" ++ issueKey, none, defaultHeaders⟩
        match takeResponse rest with
        | Except.error e => (Except.error e, [req, getReq])
        | Except.ok (getResponse, _) =>
          match getResponse.result.getProp "id" with
          | Except.error e => (Except.error e, [req, getReq])
          | Except.ok id =>
            (Except.ok ⟨some (Json.str issueKey), id, getResponse.result⟩, [req, getReq])
  | Except.error e, _ => (Except.error e, [])
  | _, Except.error e => (Except.error e, [])

/-- The fixed rich-text document wrapper `addComment` builds around the
comment text. -/
def commentBody (comment : String) : Json :=
  Json.obj [("body", Json.obj
    [("type", Json.str "doc"),
     ("version", Json.num 1),
     ("content", Json.arr [Json.obj
       [("type", Json.str "paragraph"),
        ("content", Json.arr [Json.obj
          [("type", Json.str "text"),
           ("text", Json.str comment)]])]])])]

/-- `addComment` (src/main.js:260–301): POST the document wrapper to
`/comment`; the result has no `issueId` field. -/
def addComment (inp : Inputs) (baseUrl : String)
    (client : List HttpResponse) : Except String OperationResult × List HttpRequest :=
  match getRequiredInput inp "issue_key", getRequiredInput inp "comment" with
  | Except.ok issueKey, Except.ok comment =>
    let url := baseUrl ++ "/rest/api/3/issue/" ++ issueKey ++ "/comment"
    let req : HttpRequest := ⟨Method.post, url, some (commentBody comment), defaultHeaders⟩
    match takeResponse client with
    | Except.error e => (Except.error e, [req])
    | Except.ok (response, _) =>
      if statusNotOk response.statusCode then
        (Except.error ("Failed to add comment: " ++ toString response.statusCode ++
          " " ++ response.result.stringify), [req])
      else
        (Except.ok ⟨some (Json.str issueKey), none, response.result⟩, [req])
  | Except.error e, _ => (Except.error e, [])
  | _, Except.error e => (Except.error e, [])

/-- `getIssue` (src/main.js:311–332): GET the issue, check the status, read
`id` off the body. -/
def getIssue (inp : Inputs) (baseUrl : String)
    (client : List HttpResponse) : Except String OperationResult × List HttpRequest :=
  match getRequiredInput inp "issue_key" with
  | Except.error e => (Except.error e, [])
  | Except.ok issueKey =>
    let url := baseUrl ++ "/rest/api/3/issue/" ++ issueKey
    let req : HttpRequest := ⟨Method.get, url, none, defaultHeaders⟩
    match takeResponse client with
    | Except.error e => (Except.error e, [req])
    | Except.ok (response, _) =>
      if statusNotOk response.statusCode then
        (Except.error ("Failed to get issue: " ++ toString response.statusCode ++
          " " ++ response.result.stringify), [req])
      else
        match response.result.getProp "id" with
        | Except.error e => (Except.error e, [req])
        | Except.ok id =>
          (Except.ok ⟨some (Json.str issueKey), id, response.result⟩, [req])

/-- `getProject` (src/main.js:342–361): GET the project; the result carries
neither `issueKey` nor `issueId`. -/
def getProject (inp : Inputs) (baseUrl : String)
    (client : List HttpResponse) : Except String OperationResult × List HttpRequest :=
  match getRequiredInput inp "project_key" with
  | Except.error e => (Except.error e, [])
  | Except.ok projectKey =>
    let url := baseUrl ++ "/rest/api/3/project/" ++ projectKey
    let req : HttpRequest := ⟨Method.get, url, none, defaultHeaders⟩
    match takeResponse client with
    | Except.error e => (Except.error e, [req])
    | Except.ok (response, _) =>
      if statusNotOk response.statusCode then
        (Except.error ("Failed to get project: " ++ toString response.statusCode ++
          " " ++ response.result.stringify), [req])
      else
        (Except.ok ⟨none, none, response.result⟩, [req])

/-- The version body `createVersion` builds.  In the source, `archived` and
`released` are the booleans `getInput(...) === 'true'` and are guarded by
`!== undefined`, which is always true of a boolean, so both fields are
unconditionally present. -/
def versionBody (inp : Inputs) : List (String × Json) :=
  [("name", Json.str (inp "version_name")),
   ("projectId", Json.str (inp "project_id"))] ++
  (if inp "version_description" ≠ ""
    then [("description", Json.str (inp "version_description"))] else []) ++
  [("archived", Json.bool (inp "version_archived" == "true")),
   ("released", Json.bool (inp "version_released" == "true"))] ++
  (if inp "version_start_date" ≠ ""
    then [("startDate", Json.str (inp "version_start_date"))] else []) ++
  (if inp "version_release_date" ≠ ""
    then [("releaseDate", Json.str (inp "version_release_date"))] else [])

/-- `createVersion` (src/main.js:371–424): POST the version body to
`/rest/api/3/version`; the result carries neither `issueKey` nor `issueId`. -/
def createVersion (inp : Inputs) (baseUrl : String)
    (client : List HttpResponse) : Except String OperationResult × List HttpRequest :=
  match getRequiredInput inp "project_id", getRequiredInput inp "version_name" with
  | Except.ok _, Except.ok _ =>
    let url := baseUrl ++ "/rest/api/3/version"
    let req : HttpRequest :=
      ⟨Method.post, url, some (Json.obj (versionBody inp)), defaultHeaders⟩
    match takeResponse client with
    | Except.error e => (Except.error e, [req])
    | Except.ok (response, _) =>
      if statusNotOk response.statusCode then
        (Except.error ("Failed to create version: " ++ toString response.statusCode ++
          " " ++ response.result.stringify), [req])
      else
        (Except.ok ⟨none, none, response.result⟩, [req])
  | Except.error e, _ => (Except.error e, [])
  | _, Except.error e => (Except.error e, [])

/-- The `switch (operation)` of `run` (src/main.js:36–60): exactly one
pipeline per recognized name, an error naming the value otherwise. -/
def dispatchOperation (operation : String) (inp : Inputs) (parse : JsonParser)
    (baseUrl : String) (client : List HttpResponse) :
    Except String OperationResult × List HttpRequest :=
  if operation = "create_issue" then createIssue inp parse baseUrl client
  else if operation = "update_issue" then updateIssue inp parse baseUrl client
  else if operation = "transition_issue" then transitionIssue inp baseUrl client
  else if operation = "add_comment" then addComment inp baseUrl client
  else if operation = "get_issue" then getIssue inp baseUrl client
  else if operation = "get_project" then getProject inp baseUrl client
  else if operation = "create_version" then createVersion inp baseUrl client
  else (Except.error ("Unsupported operation: " ++ operation), [])

/-- All observable effects of one `run`: the `setOutput` pairs in order, the
`setFailed` message if any, and the HTTP calls issued. -/
structure RunEffects where
  outputs : List (String × Json)
  failed : Option String
  calls : List HttpRequest

/-- The catch block of `run` (src/main.js:71–82): set `status` to `error`
and mark the run failed with the message. -/
def errorEffects (e : String) (calls : List HttpRequest) : RunEffects :=
  ⟨[("status", Json.str "error")], some e, calls⟩

/-- The output block of `run` (src/main.js:62–70): `status`, then
`issue_key` / `issue_id` when truthy, then the stringified `data`. -/
def successOutputs (response : OperationResult) : List (String × Json) :=
  [("status", Json.str "success")] ++
  (if truthyOpt response.issueKey
    then [("issue_key", response.issueKey.getD Json.null)] else []) ++
  (if truthyOpt response.issueId
    then [("issue_id", response.issueId.getD Json.null)] else []) ++
  [("response", Json.str response.data.stringify)]

/-- Base-URL normalization in `run` (src/main.js:23–25): when the URL ends
with `'/'`, strip that last character (`endsWith('/')` / `slice(0, -1)`,
expressed on the character list). -/
def normalizeBaseUrl (u : String) : String :=
  if u.data.getLast? = some '/' then String.mk u.data.dropLast else u

/-- `run` (src/main.js:10–83): read the four base inputs, strip a trailing
slash off the base URL, dispatch, and emit outputs or catch the error. -/
def run (inp : Inputs) (parse : JsonParser) (client : List HttpResponse) : RunEffects :=
  match getRequiredInput inp "jira_base_url", getRequiredInput inp "jira_email",
        getRequiredInput inp "jira_api_token", getRequiredInput inp "operation" with
  | Except.ok jiraBaseUrl, Except.ok _, Except.ok _, Except.ok operation =>
    match dispatchOperation operation inp parse (normalizeBaseUrl jiraBaseUrl) client with
    | (Except.error e, calls) => errorEffects e calls
    | (Except.ok response, calls) => ⟨successOutputs response, none, calls⟩
  | Except.error e, _, _, _ => errorEffects e []
  | _, Except.error e, _, _ => errorEffects e []
  | _, _, Except.error e, _ => errorEffects e []
  | _, _, _, Except.error e => errorEffects e []

/-! Concrete instantiations used to exercise the theorems on closed inputs. -/

/-- Override one input of an input map. -/
def withInput (base : Inputs) (name value : String) : Inputs :=
  fun n => if n = name then value else base n

/-- A fully-populated input map for the given operation name. -/
def sampleInputs (op : String) : Inputs := fun n =>
  if n = "jira_base_url" then "https://example.atlassian.net/"
  else if n = "jira_email" then "user@example.com"
  else if n = "jira_api_token" then "token"
  else if n = "operation" then op
  else if n = "project_key" then "PROJ"
  else if n = "issue_type" then "Bug"
  else if n = "summary" then "A summary"
  else if n = "issue_key" then "PROJ-1"
  else if n = "transition_id" then "31"
  else if n = "comment" then "hello"
  else if n = "project_id" then "10000"
  else if n = "version_name" then "v1.0.0"
  else ""

/-- A parser oracle that always succeeds with `j`. -/
def okParser (j : Json) : JsonParser := fun _ => Except.ok j

/-- A parser oracle that always fails with message `m`. -/
def failParser (m : String) : JsonParser := fun _ => Except.error m

/-- A sample issue body, as a remote response. -/
def sampleIssueJson : Json :=
  Json.obj [("id", Json.str "10002"), ("key", Json.str "PROJ-1")]

/-- An oracle where the write succeeds and the read-back GET returns a `404`
with a `null` body (what the real client yields for a 404). -/
def nullGetClient : List HttpResponse :=
  [⟨204, Json.obj []⟩, ⟨404, Json.null⟩]

/-- An oracle where the write succeeds and the read-back GET returns an empty
object, so the re-fetched issue carries no `id`. -/
def emptyGetClient : List HttpResponse :=
  [⟨204, Json.obj []⟩, ⟨200, Json.obj []⟩]

/-! ## Helper lemmas -/

theorem lookup_append (xs ys : List (String × Json)) (k : String) :
    List.lookup k (xs ++ ys) = (List.lookup k xs).or (List.lookup k ys) := by
  induction xs with
  | nil => simp
  | cons p xs ih =>
    obtain ⟨k0, v0⟩ := p
    by_cases h : k = k0
    · subst h; simp [List.lookup]
    · simp [List.lookup, beq_false_of_ne h, ih]

theorem lookup_map_override (a b : List (String × Json)) (k : String) :
    List.lookup k (a.map fun p =>
      match List.lookup p.1 b with
      | some v => (p.1, v)
      | none => p) =
    match List.lookup k a with
    | some v => some ((List.lookup k b).getD v)
    | none => none := by
  induction a with
  | nil => simp
  | cons p a ih =>
    obtain ⟨k0, v0⟩ := p
    by_cases h : k = k0
    · subst h
      cases hb : List.lookup k b <;> simp [List.lookup, hb]
    · cases hb : List.lookup k0 b <;>
        simp [List.lookup, beq_false_of_ne h, hb, ih]

theorem lookup_filter_of_lookup_none (a b : List (String × Json)) (k : String)
    (h : List.lookup k a = none) :
    List.lookup k (b.filter fun p => (List.lookup p.1 a).isNone) =
      List.lookup k b := by
  induction b with
  | nil => simp
  | cons p b ih =>
    obtain ⟨k1, w⟩ := p
    by_cases hk : k = k1
    · subst hk
      simp [List.filter, h, List.lookup]
    · cases hc : (List.lookup k1 a).isNone <;>
        simp [List.filter, hc, List.lookup, beq_false_of_ne hk, ih]

/-- Lookup through the spread merge: on a key collision the value from the
spread (second) object wins; otherwise the base value survives. -/
theorem lookup_spreadMerge (a b : List (String × Json)) (k : String) :
    List.lookup k (spreadMerge a b) = (List.lookup k b).or (List.lookup k a) := by
  unfold spreadMerge
  rw [lookup_append]
  cases ha : List.lookup k a with
  | some v =>
    have hm := lookup_map_override a b k
    rw [ha] at hm
    rw [hm]
    cases hb : List.lookup k b <;> simp [hb]
  | none =>
    have hm := lookup_map_override a b k
    rw [ha] at hm
    rw [hm, lookup_filter_of_lookup_none a b k ha]
    cases hb : List.lookup k b <;> simp

theorem statusNotOk_of_out_of_range {n : Nat} (h : n < 200 ∨ 300 ≤ n) :
    statusNotOk n = true := by
  unfold statusNotOk
  rcases h with h | h <;> simp [h]

theorem statusNotOk_eq_false {n : Nat} (h1 : 200 ≤ n) (h2 : n < 300) :
    statusNotOk n = false := by
  unfold statusNotOk
  simp
  omega

/-- Property access never throws on a non-null receiver. -/
theorem getProp_of_ne_null {j : Json} (h : j ≠ Json.null) (k : String) :
    ∃ o, Json.getProp j k = Except.ok o := by
  cases j with
  | null => exact absurd rfl h
  | bool b => exact ⟨none, rfl⟩
  | num n => exact ⟨none, rfl⟩
  | str s => exact ⟨none, rfl⟩
  | arr xs => exact ⟨none, rfl⟩
  | obj kvs => exact ⟨List.lookup k kvs, rfl⟩

/-- Every run either ends in the catch block or in the success output block. -/
theorem run_shape (inp : Inputs) (parse : JsonParser) (client : List HttpResponse) :
    (∃ e calls, run inp parse client = errorEffects e calls) ∨
    (∃ res calls, run inp parse client = ⟨successOutputs res, none, calls⟩) := by
  unfold run
  split
  · split
    · left; exact ⟨_, _, rfl⟩
    · right; exact ⟨_, _, rfl⟩
  · left; exact ⟨_, _, rfl⟩
  · left; exact ⟨_, _, rfl⟩
  · left; exact ⟨_, _, rfl⟩
  · left; exact ⟨_, _, rfl⟩

/-- `createIssueCall` always issues exactly the one POST, whatever the
oracle answers. -/
theorem createIssueCall_calls (fields : List (String × Json)) (baseUrl : String)
    (client : List HttpResponse) :
    (createIssueCall fields baseUrl client).2 =
      [⟨Method.post, baseUrl ++ "/rest/api/3/issue",
        some (Json.obj [("fields", Json.obj fields)]), defaultHeaders⟩] := by
  unfold createIssueCall
  cases client with
  | nil => rfl
  | cons r rest =>
    simp only [takeResponse]
    split
    · rfl
    · split
      · rfl
      · split <;> rfl

/-- When the dispatched pipeline fails, `run` lands in the catch block. -/
theorem run_dispatch_error (inp : Inputs) (parse : JsonParser)
    (client : List HttpResponse) (e : String) (calls : List HttpRequest)
    (hurl : inp "jira_base_url" ≠ "") (hmail : inp "jira_email" ≠ "")
    (htok : inp "jira_api_token" ≠ "") (hope : inp "operation" ≠ "")
    (hd : dispatchOperation (inp "operation") inp parse
        (normalizeBaseUrl (inp "jira_base_url")) client = (Except.error e, calls)) :
    run inp parse client = errorEffects e calls := by
  simp [run, getRequiredInput, hurl, hmail, htok, hope, hd]

/-- When the dispatched pipeline succeeds, `run` emits the success outputs. -/
theorem run_dispatch_ok (inp : Inputs) (parse : JsonParser)
    (client : List HttpResponse) (res : OperationResult) (calls : List HttpRequest)
    (hurl : inp "jira_base_url" ≠ "") (hmail : inp "jira_email" ≠ "")
    (htok : inp "jira_api_token" ≠ "") (hope : inp "operation" ≠ "")
    (hd : dispatchOperation (inp "operation") inp parse
        (normalizeBaseUrl (inp "jira_base_url")) client = (Except.ok res, calls)) :
    run inp parse client = ⟨successOutputs res, none, calls⟩ := by
  simp [run, getRequiredInput, hurl, hmail, htok, hope, hd]

/-- `issue_key` appears among the success outputs exactly when the result's
`issueKey` is truthy. -/
theorem issue_key_mem_successOutputs (res : OperationResult) (v : Json) :
    (("issue_key", v) ∈ successOutputs res) ↔
      (truthyOpt res.issueKey = true ∧ v = res.issueKey.getD Json.null) := by
  unfold successOutputs
  cases h1 : truthyOpt res.issueKey <;> cases h2 : truthyOpt res.issueId <;> simp

/-- `issue_id` appears among the success outputs exactly when the result's
`issueId` is truthy. -/
theorem issue_id_mem_successOutputs (res : OperationResult) (v : Json) :
    (("issue_id", v) ∈ successOutputs res) ↔
      (truthyOpt res.issueId = true ∧ v = res.issueId.getD Json.null) := by
  unfold successOutputs
  cases h1 : truthyOpt res.issueKey <;> cases h2 : truthyOpt res.issueId <;> simp

/-- Inverting a successful required-input read. -/
theorem getRequiredInput_ok {inp : Inputs} {name val : String}
    (h : getRequiredInput inp name = Except.ok val) :
    val = inp name ∧ inp name ≠ "" := by
  unfold getRequiredInput at h
  split at h
  · exact absurd h (by simp)
  · rename_i hne
    refine ⟨?_, hne⟩
    injection h with h
    exact h.symm

/-- A nonempty string is a truthy `issueKey`/`issueId` value. -/
theorem truthyOpt_str {s : String} (h : s ≠ "") :
    truthyOpt (some (Json.str s)) = true := by
  simp [truthyOpt, Json.truthy, h]

/-! ## Claims -/

/-- C4: for every operation name other than the seven recognized values, the
run fails with the message `Unsupported operation: <value>`, no pipeline
executes, and no HTTP call is made (the call list is empty). -/
theorem unsupported_operation_fails (inp : Inputs) (parse : JsonParser)
    (client : List HttpResponse)
    (hurl : inp "jira_base_url" ≠ "") (hmail : inp "jira_email" ≠ "")
    (htok : inp "jira_api_token" ≠ "") (h1 : inp "operation" ≠ "")
    (h2 : inp "operation" ≠ "create_issue") (h3 : inp "operation" ≠ "update_issue")
    (h4 : inp "operation" ≠ "transition_issue") (h5 : inp "operation" ≠ "add_comment")
    (h6 : inp "operation" ≠ "get_issue") (h7 : inp "operation" ≠ "get_project")
    (h8 : inp "operation" ≠ "create_version") :
    run inp parse client =
      ⟨[("status", Json.str "error")],
       some ("Unsupported operation: " ++ inp "operation"), []⟩ := by
  simp [run, dispatchOperation, getRequiredInput, errorEffects,
    hurl, hmail, htok, h1, h2, h3, h4, h5, h6, h7, h8]

/-- Witness for C4: the unsupported operation name `noop`. -/
theorem unsupported_operation_fails_witness :
    (sampleInputs "noop") "operation" ≠ "create_issue" ∧
    run (sampleInputs "noop") (failParser "x") [] =
      ⟨[("status", Json.str "error")], some ("Unsupported operation: " ++ (sampleInputs "noop") "operation"), []⟩ :=
  ⟨by decide,
   unsupported_operation_fails (sampleInputs "noop") (failParser "x") []
     (by decide) (by decide) (by decide) (by decide) (by decide) (by decide)
     (by decide) (by decide) (by decide) (by decide) (by decide)⟩

/-- C5: when `fields_json` is present but the parser rejects it, both
`create_issue` and `update_issue` fail with `Invalid fields_json: <parser
message>` and issue no HTTP call. -/
theorem invalid_fields_json_fails_before_call (inp : Inputs) (parse : JsonParser)
    (baseUrl : String) (client : List HttpResponse) (m : String)
    (hpk : inp "project_key" ≠ "") (hit : inp "issue_type" ≠ "")
    (hsum : inp "summary" ≠ "") (hik : inp "issue_key" ≠ "")
    (hfj : inp "fields_json" ≠ "")
    (hbad : parse (inp "fields_json") = Except.error m) :
    createIssue inp parse baseUrl client =
      (Except.error ("Invalid fields_json: " ++ m), []) ∧
    updateIssue inp parse baseUrl client =
      (Except.error ("Invalid fields_json: " ++ m), []) := by
  constructor <;>
    simp [createIssue, updateIssue, mergeFieldsJson, getRequiredInput,
      hpk, hit, hsum, hik, hfj, hbad]

/-- Witness for C5: `fields_json = '\x7binvalid\x7d'` with a failing parser. -/
theorem invalid_fields_json_fails_before_call_witness :
    (withInput (sampleInputs "create_issue") "fields_json" "\x7binvalid\x7d") "fields_json" ≠ "" ∧
    (createIssue (withInput (sampleInputs "create_issue") "fields_json" "\x7binvalid\x7d")
        (failParser "Unexpected token i") "https://example.atlassian.net" [] =
      (Except.error ("Invalid fields_json: " ++ "Unexpected token i"), []) ∧
     updateIssue (withInput (sampleInputs "create_issue") "fields_json" "\x7binvalid\x7d")
        (failParser "Unexpected token i") "https://example.atlassian.net" [] =
      (Except.error ("Invalid fields_json: " ++ "Unexpected token i"), [])) :=
  ⟨by decide,
   invalid_fields_json_fails_before_call _ _ _ _ _
     (by decide) (by decide) (by decide) (by decide) (by decide) rfl⟩

/-- C7: whenever the run fails (any error path), the only output set is
`status = error`; `issue_key`, `issue_id` and `response` are never set. -/
theorem error_path_sets_only_status (inp : Inputs) (parse : JsonParser)
    (client : List HttpResponse) (m : String)
    (hfail : (run inp parse client).failed = some m) :
    (run inp parse client).outputs = [("status", Json.str "error")] ∧
    (∀ v, ("issue_key", v) ∉ (run inp parse client).outputs) ∧
    (∀ v, ("issue_id", v) ∉ (run inp parse client).outputs) ∧
    (∀ v, ("response", v) ∉ (run inp parse client).outputs) := by
  rcases run_shape inp parse client with ⟨e, calls, heq⟩ | ⟨res, calls, heq⟩
  · rw [heq]
    refine ⟨rfl, ?_, ?_, ?_⟩ <;> intro v <;> simp [errorEffects]
  · rw [heq] at hfail
    simp at hfail

/-- Witness for C7: an unsupported operation makes the run fail. -/
theorem error_path_sets_only_status_witness :
    (run (sampleInputs "noop") (failParser "x") []).failed =
      some "Unsupported operation: noop" ∧
    ((run (sampleInputs "noop") (failParser "x") []).outputs =
      [("status", Json.str "error")] ∧
     (∀ v, ("issue_key", v) ∉ (run (sampleInputs "noop") (failParser "x") []).outputs) ∧
     (∀ v, ("issue_id", v) ∉ (run (sampleInputs "noop") (failParser "x") []).outputs) ∧
     (∀ v, ("response", v) ∉ (run (sampleInputs "noop") (failParser "x") []).outputs)) :=
  ⟨rfl, error_path_sets_only_status (sampleInputs "noop") (failParser "x") []
    "Unsupported operation: noop" rfl⟩

/-- C9: `add_comment` sends exactly the fixed rich-text document wrapper
around the comment text, and on success the result carries the input
`issue_key` and the response body but no `issueId`. -/
theorem add_comment_body_and_result (inp : Inputs) (baseUrl : String)
    (client : List HttpResponse)
    (hik : inp "issue_key" ≠ "") (hc : inp "comment" ≠ "") :
    (addComment inp baseUrl client).2 =
      [⟨Method.post, baseUrl ++ "/rest/api/3/issue/" ++ inp "issue_key" ++ "/comment",
        some (commentBody (inp "comment")), defaultHeaders⟩] ∧
    commentBody (inp "comment") =
      Json.obj [("body", Json.obj
        [("type", Json.str "doc"),
         ("version", Json.num 1),
         ("content", Json.arr [Json.obj
           [("type", Json.str "paragraph"),
            ("content", Json.arr [Json.obj
              [("type", Json.str "text"),
               ("text", Json.str (inp "comment"))]])]])])] ∧
    ∀ r rest, client = r :: rest → statusNotOk r.statusCode = false →
      (addComment inp baseUrl client).1 =
        Except.ok ⟨some (Json.str (inp "issue_key")), none, r.result⟩ := by
  refine ⟨?_, rfl, ?_⟩
  · cases client with
    | nil => simp [addComment, getRequiredInput, hik, hc, takeResponse]
    | cons r rest =>
      simp only [addComment, getRequiredInput, if_neg hik, if_neg hc, takeResponse]
      split <;> rfl
  · intro r rest hcl hst
    subst hcl
    simp [addComment, getRequiredInput, hik, hc, takeResponse, hst]

/-- C3: `create_version` coerces `version_archived`/`version_released` by
string comparison with `"true"`; both fields are always present in the body,
so an absent input builds the same request as an explicit `"false"`. -/
theorem create_version_boolean_coercion (inp : Inputs) (baseUrl : String)
    (client : List HttpResponse)
    (hpid : inp "project_id" ≠ "") (hvn : inp "version_name" ≠ "") :
    (createVersion inp baseUrl client).2 =
      [⟨Method.post, baseUrl ++ "/rest/api/3/version",
        some (Json.obj (versionBody inp)), defaultHeaders⟩] ∧
    List.lookup "archived" (versionBody inp) =
      some (Json.bool (inp "version_archived" == "true")) ∧
    List.lookup "released" (versionBody inp) =
      some (Json.bool (inp "version_released" == "true")) ∧
    (inp "version_archived" = "true" →
      List.lookup "archived" (versionBody inp) = some (Json.bool true)) ∧
    (inp "version_archived" ≠ "true" →
      List.lookup "archived" (versionBody inp) = some (Json.bool false)) ∧
    (inp "version_released" = "true" →
      List.lookup "released" (versionBody inp) = some (Json.bool true)) ∧
    (inp "version_released" ≠ "true" →
      List.lookup "released" (versionBody inp) = some (Json.bool false)) ∧
    (∀ inp2 : Inputs,
      (∀ n, n ≠ "version_archived" → n ≠ "version_released" → inp2 n = inp n) →
      inp "version_archived" = "" → inp2 "version_archived" = "false" →
      inp "version_released" = "" → inp2 "version_released" = "false" →
      createVersion inp baseUrl client = createVersion inp2 baseUrl client) := by
  have hlookA : List.lookup "archived" (versionBody inp) =
      some (Json.bool (inp "version_archived" == "true")) := by
    unfold versionBody
    rw [lookup_append, lookup_append, lookup_append, lookup_append]
    rcases eq_or_ne (inp "version_description") "" with hd | hd <;>
      simp [List.lookup, hd]
  have hlookR : List.lookup "released" (versionBody inp) =
      some (Json.bool (inp "version_released" == "true")) := by
    unfold versionBody
    rw [lookup_append, lookup_append, lookup_append, lookup_append]
    rcases eq_or_ne (inp "version_description") "" with hd | hd <;>
      simp [List.lookup, hd]
  refine ⟨?_, hlookA, hlookR, ?_, ?_, ?_, ?_, ?_⟩
  · unfold createVersion getRequiredInput
    rw [if_neg hpid, if_neg hvn]
    cases client with
    | nil => rfl
    | cons r rest =>
      simp only [takeResponse]
      split <;> rfl
  · intro h
    rw [hlookA, h]
    rfl
  · intro h
    rw [hlookA, beq_false_of_ne h]
  · intro h
    rw [hlookR, h]
    rfl
  · intro h
    rw [hlookR, beq_false_of_ne h]
  · intro inp2 hagree ha1 ha2 hr1 hr2
    have h1 : inp2 "version_name" = inp "version_name" := hagree _ (by decide) (by decide)
    have h2 : inp2 "project_id" = inp "project_id" := hagree _ (by decide) (by decide)
    have h3 : inp2 "version_description" = inp "version_description" :=
      hagree _ (by decide) (by decide)
    have h4 : inp2 "version_start_date" = inp "version_start_date" :=
      hagree _ (by decide) (by decide)
    have h5 : inp2 "version_release_date" = inp "version_release_date" :=
      hagree _ (by decide) (by decide)
    have hb : versionBody inp2 = versionBody inp := by
      unfold versionBody
      rw [h1, h2, h3, h4, h5, ha1, ha2, hr1, hr2]
      simp
    unfold createVersion getRequiredInput
    rw [h1, h2, hb]

/-- Witness for C3: absent booleans with required inputs present. -/
theorem create_version_boolean_coercion_witness :
    (sampleInputs "create_version") "project_id" ≠ "" ∧
    List.lookup "archived" (versionBody (sampleInputs "create_version")) =
      some (Json.bool ((sampleInputs "create_version") "version_archived" == "true")) :=
  ⟨by decide,
   (create_version_boolean_coercion (sampleInputs "create_version")
     "https://example.atlassian.net" [] (by decide) (by decide)).2.1⟩

/-- C2: the `create_issue` request body is the base fields (with `description`
when present) with the parsed `fields_json` object shallow-merged on top, the
parsed values winning on key collisions. -/
theorem create_issue_body_merge (inp : Inputs) (parse : JsonParser) (baseUrl : String)
    (client : List HttpResponse) (extra : List (String × Json))
    (hpk : inp "project_key" ≠ "") (hit : inp "issue_type" ≠ "")
    (hsum : inp "summary" ≠ "") (hfj : inp "fields_json" ≠ "")
    (hparse : parse (inp "fields_json") = Except.ok (Json.obj extra)) :
    (createIssue inp parse baseUrl client).2 =
      [⟨Method.post, baseUrl ++ "/rest/api/3/issue",
        some (Json.obj [("fields", Json.obj (spreadMerge (createIssueFields inp) extra))]),
        defaultHeaders⟩] ∧
    createIssueFields inp =
      ([("project", Json.obj [("key", Json.str (inp "project_key"))]),
        ("issuetype", Json.obj [("name", Json.str (inp "issue_type"))]),
        ("summary", Json.str (inp "summary"))] ++
       (if inp "description" ≠ ""
         then [("description", Json.str (inp "description"))] else [])) ∧
    (∀ k, List.lookup k (spreadMerge (createIssueFields inp) extra) =
      (List.lookup k extra).or (List.lookup k (createIssueFields inp))) := by
  refine ⟨?_, ?_, fun k => lookup_spreadMerge _ _ k⟩
  · have hred : createIssue inp parse baseUrl client =
        createIssueCall (spreadMerge (createIssueFields inp) extra) baseUrl client := by
      simp [createIssue, getRequiredInput, hpk, hit, hsum,
        mergeFieldsJson, hfj, hparse, jsSpread]
    rw [hred, createIssueCall_calls]
  · by_cases hd : inp "description" = "" <;> simp [createIssueFields, hd]

/-- Witness for C2: `fields_json = '\x7b"x":"y"\x7d'` overriding nothing. -/
theorem create_issue_body_merge_witness :
    (sampleInputs "create_issue") "project_key" ≠ "" ∧
    (createIssue
        (withInput (sampleInputs "create_issue") "fields_json" "\x7b\"x\":\"y\"\x7d")
        (okParser (Json.obj [("x", Json.str "y")]))
        "https://example.atlassian.net" [⟨201, sampleIssueJson⟩]).2 =
      [⟨Method.post, "https://example.atlassian.net" ++ "/rest/api/3/issue",
        some (Json.obj [("fields", Json.obj (spreadMerge
          (createIssueFields
            (withInput (sampleInputs "create_issue") "fields_json" "\x7b\"x\":\"y\"\x7d"))
          [("x", Json.str "y")]))]),
        defaultHeaders⟩] :=
  ⟨by decide,
   (create_issue_body_merge
     (withInput (sampleInputs "create_issue") "fields_json" "\x7b\"x\":\"y\"\x7d")
     (okParser (Json.obj [("x", Json.str "y")]))
     "https://example.atlassian.net" [⟨201, sampleIssueJson⟩]
     [("x", Json.str "y")]
     (by decide) (by decide) (by decide) (by decide) rfl).1⟩

/-- Witness for C9: comment `hello` against a 200 response. -/
theorem add_comment_body_and_result_witness :
    (sampleInputs "add_comment") "comment" ≠ "" ∧
    ((addComment (sampleInputs "add_comment") "https://example.atlassian.net"
        [⟨201, sampleIssueJson⟩]).2 =
      [⟨Method.post, "https://example.atlassian.net" ++ "/rest/api/3/issue/" ++
          (sampleInputs "add_comment") "issue_key" ++ "/comment",
        some (commentBody ((sampleInputs "add_comment") "comment")), defaultHeaders⟩] ∧
     commentBody ((sampleInputs "add_comment") "comment") =
      Json.obj [("body", Json.obj
        [("type", Json.str "doc"),
         ("version", Json.num 1),
         ("content", Json.arr [Json.obj
           [("type", Json.str "paragraph"),
            ("content", Json.arr [Json.obj
              [("type", Json.str "text"),
               ("text", Json.str ((sampleInputs "add_comment") "comment"))]])]])])] ∧
     ∀ r rest, ([⟨201, sampleIssueJson⟩] : List HttpResponse) = r :: rest →
       statusNotOk r.statusCode = false →
       (addComment (sampleInputs "add_comment") "https://example.atlassian.net"
          [⟨201, sampleIssueJson⟩]).1 =
         Except.ok ⟨some (Json.str ((sampleInputs "add_comment") "issue_key")), none, r.result⟩) :=
  ⟨by decide,
   add_comment_body_and_result (sampleInputs "add_comment")
     "https://example.atlassian.net" [⟨201, sampleIssueJson⟩] (by decide) (by decide)⟩

/-- C1: `update_issue` and `transition_issue` issue exactly two calls (the
write, then a GET of the issue) when the first status is in range, exactly
one call when it is out of range, and any success result carries the input
`issue_key` with `issueId`/`data` taken from the second (GET) response — the
first response body never appears in the result. -/
theorem update_transition_two_calls (inp : Inputs) (parse : JsonParser)
    (baseUrl : String) (r1 : HttpResponse) (rest : List HttpResponse)
    (flds : List (String × Json))
    (hik : inp "issue_key" ≠ "")
    (hmf : mergeFieldsJson parse (inp "fields_json") (updateInitialFields inp) =
      Except.ok flds)
    (htr : inp "transition_id" ≠ "") :
    (statusNotOk r1.statusCode = false →
      (updateIssue inp parse baseUrl (r1 :: rest)).2 =
        [⟨Method.put, baseUrl ++ "/rest/api/3/issue/" ++ inp "issue_key",
          some (Json.obj [("fields", Json.obj flds)]), defaultHeaders⟩,
         ⟨Method.get, baseUrl ++ "/rest/api/3/issue/" ++ inp "issue_key",
          none, defaultHeaders⟩] ∧
      (transitionIssue inp baseUrl (r1 :: rest)).2 =
        [⟨Method.post, baseUrl ++ "/rest/api/3/issue/" ++ inp "issue_key" ++ "/transitions",
          some (Json.obj [("transition", Json.obj [("id", Json.str (inp "transition_id"))])]),
          defaultHeaders⟩,
         ⟨Method.get, baseUrl ++ "/rest/api/3/issue/" ++ inp "issue_key",
          none, defaultHeaders⟩]) ∧
    (statusNotOk r1.statusCode = true →
      (updateIssue inp parse baseUrl (r1 :: rest)).2 =
        [⟨Method.put, baseUrl ++ "/rest/api/3/issue/" ++ inp "issue_key",
          some (Json.obj [("fields", Json.obj flds)]), defaultHeaders⟩] ∧
      (transitionIssue inp baseUrl (r1 :: rest)).2 =
        [⟨Method.post, baseUrl ++ "/rest/api/3/issue/" ++ inp "issue_key" ++ "/transitions",
          some (Json.obj [("transition", Json.obj [("id", Json.str (inp "transition_id"))])]),
          defaultHeaders⟩]) ∧
    (∀ r2 rest2 id, rest = r2 :: rest2 → statusNotOk r1.statusCode = false →
      Json.getProp r2.result "id" = Except.ok id →
      (updateIssue inp parse baseUrl (r1 :: rest)).1 =
        Except.ok ⟨some (Json.str (inp "issue_key")), id, r2.result⟩ ∧
      (transitionIssue inp baseUrl (r1 :: rest)).1 =
        Except.ok ⟨some (Json.str (inp "issue_key")), id, r2.result⟩) := by
  have hu : updateIssue inp parse baseUrl (r1 :: rest) =
      updateIssueCall (inp "issue_key") flds baseUrl (r1 :: rest) := by
    simp [updateIssue, getRequiredInput, hik, hmf]
  refine ⟨?_, ?_, ?_⟩
  · intro hst
    constructor
    · rw [hu]
      simp only [updateIssueCall, takeResponse, hst]
      cases rest with
      | nil => simp [takeResponse]
      | cons r2 rest2 =>
        simp only [takeResponse]
        split
        · rename_i hcontra
          exact absurd hcontra (by simp)
        · split <;> rfl
    · simp only [transitionIssue, getRequiredInput, if_neg hik, if_neg htr,
        takeResponse, hst]
      cases rest with
      | nil => simp [takeResponse]
      | cons r2 rest2 =>
        simp only [takeResponse]
        split
        · rename_i hcontra
          exact absurd hcontra (by simp)
        · split <;> rfl
  · intro hst
    constructor
    · rw [hu]
      simp [updateIssueCall, takeResponse, hst]
    · simp [transitionIssue, getRequiredInput, hik, htr, takeResponse, hst]
  · intro r2 rest2 id hrest hst hid
    subst hrest
    constructor
    · rw [hu]
      simp [updateIssueCall, takeResponse, hst, hid]
    · simp [transitionIssue, getRequiredInput, hik, htr, takeResponse, hst, hid]

/-- Witness for C1: a 204 write followed by a 200 GET of the issue body. -/
theorem update_transition_two_calls_witness :
    (sampleInputs "update_issue") "issue_key" ≠ "" ∧
    statusNotOk (204 : Nat) = false ∧
    Json.getProp sampleIssueJson "id" = Except.ok (some (Json.str "10002")) ∧
    ((updateIssue (sampleInputs "update_issue") (failParser "x")
        "https://example.atlassian.net"
        [⟨204, Json.obj []⟩, ⟨200, sampleIssueJson⟩]).1 =
      Except.ok ⟨some (Json.str ((sampleInputs "update_issue") "issue_key")),
        some (Json.str "10002"), sampleIssueJson⟩ ∧
     (transitionIssue (sampleInputs "update_issue")
        "https://example.atlassian.net"
        [⟨204, Json.obj []⟩, ⟨200, sampleIssueJson⟩]).1 =
      Except.ok ⟨some (Json.str ((sampleInputs "update_issue") "issue_key")),
        some (Json.str "10002"), sampleIssueJson⟩) :=
  ⟨by decide, rfl, rfl,
   (update_transition_two_calls (sampleInputs "update_issue") (failParser "x")
     "https://example.atlassian.net" ⟨204, Json.obj []⟩ [⟨200, sampleIssueJson⟩] []
     (by decide) rfl (by decide)).2.2
     ⟨200, sampleIssueJson⟩ [] (some (Json.str "10002")) rfl rfl rfl⟩

/-- Counterexample to C10 as stated: a read-back GET outcome `404` with body
`null` (what the real client yields on 404) makes `update_issue` throw while
reading `.id`, so the run reports `status = error`, not success. -/
theorem get_readback_null_body_counterexample :
    (run (sampleInputs "update_issue") (failParser "x") nullGetClient).failed =
      some "Cannot read properties of null (reading \"id\")" ∧
    (run (sampleInputs "update_issue") (failParser "x") nullGetClient).outputs =
      [("status", Json.str "error")] ∧
    (updateIssue (sampleInputs "update_issue") (failParser "x")
        "https://example.atlassian.net" nullGetClient).1 =
      Except.error "Cannot read properties of null (reading \"id\")" :=
  ⟨rfl, rfl, rfl⟩

/-- C10 (amended): the status code of the read-back GET is never inspected —
for every GET outcome whose body is not `null` (a `null` body makes the
`.id` read throw), `update_issue` and `transition_issue` return a success
result whose `issueId`/`data` come from that GET response, and the run
reports `status = success`, whatever the GET status code. -/
theorem get_readback_status_not_inspected (inpU inpT : Inputs) (parse : JsonParser)
    (r1 r2 : HttpResponse) (rest : List HttpResponse) (flds : List (String × Json))
    (hst1 : 200 ≤ r1.statusCode) (hst2 : r1.statusCode < 300)
    (hnn : r2.result ≠ Json.null)
    (hurlU : inpU "jira_base_url" ≠ "") (hmailU : inpU "jira_email" ≠ "")
    (htokU : inpU "jira_api_token" ≠ "") (hopU : inpU "operation" = "update_issue")
    (hikU : inpU "issue_key" ≠ "")
    (hmfU : mergeFieldsJson parse (inpU "fields_json") (updateInitialFields inpU) =
      Except.ok flds)
    (hurlT : inpT "jira_base_url" ≠ "") (hmailT : inpT "jira_email" ≠ "")
    (htokT : inpT "jira_api_token" ≠ "")
    (hopT : inpT "operation" = "transition_issue")
    (hikT : inpT "issue_key" ≠ "") (htrT : inpT "transition_id" ≠ "") :
    (∃ id, Json.getProp r2.result "id" = Except.ok id ∧
      (updateIssue inpU parse (normalizeBaseUrl (inpU "jira_base_url"))
          (r1 :: r2 :: rest)).1 =
        Except.ok ⟨some (Json.str (inpU "issue_key")), id, r2.result⟩) ∧
    (run inpU parse (r1 :: r2 :: rest)).failed = none ∧
    ("status", Json.str "success") ∈ (run inpU parse (r1 :: r2 :: rest)).outputs ∧
    (∃ id, Json.getProp r2.result "id" = Except.ok id ∧
      (transitionIssue inpT (normalizeBaseUrl (inpT "jira_base_url"))
          (r1 :: r2 :: rest)).1 =
        Except.ok ⟨some (Json.str (inpT "issue_key")), id, r2.result⟩) ∧
    (run inpT parse (r1 :: r2 :: rest)).failed = none ∧
    ("status", Json.str "success") ∈ (run inpT parse (r1 :: r2 :: rest)).outputs := by
  obtain ⟨id, hid⟩ := getProp_of_ne_null hnn "id"
  have hok : statusNotOk r1.statusCode = false := statusNotOk_eq_false hst1 hst2
  have hupair : updateIssue inpU parse (normalizeBaseUrl (inpU "jira_base_url"))
      (r1 :: r2 :: rest) =
      (Except.ok ⟨some (Json.str (inpU "issue_key")), id, r2.result⟩,
       [⟨Method.put,
          normalizeBaseUrl (inpU "jira_base_url") ++ "/rest/api/3/issue/" ++ inpU "issue_key",
          some (Json.obj [("fields", Json.obj flds)]), defaultHeaders⟩,
        ⟨Method.get,
          normalizeBaseUrl (inpU "jira_base_url") ++ "/rest/api/3/issue/" ++ inpU "issue_key",
          none, defaultHeaders⟩]) := by
    simp [updateIssue, getRequiredInput, hikU, hmfU, updateIssueCall,
      takeResponse, hok, hid]
  have htpair : transitionIssue inpT (normalizeBaseUrl (inpT "jira_base_url"))
      (r1 :: r2 :: rest) =
      (Except.ok ⟨some (Json.str (inpT "issue_key")), id, r2.result⟩,
       [⟨Method.post,
          normalizeBaseUrl (inpT "jira_base_url") ++ "/rest/api/3/issue/" ++
            inpT "issue_key" ++ "/transitions",
          some (Json.obj [("transition", Json.obj [("id", Json.str (inpT "transition_id"))])]),
          defaultHeaders⟩,
        ⟨Method.get,
          normalizeBaseUrl (inpT "jira_base_url") ++ "/rest/api/3/issue/" ++ inpT "issue_key",
          none, defaultHeaders⟩]) := by
    simp [transitionIssue, getRequiredInput, hikT, htrT, takeResponse, hok, hid]
  have hdU : dispatchOperation (inpU "operation") inpU parse
      (normalizeBaseUrl (inpU "jira_base_url")) (r1 :: r2 :: rest) =
      updateIssue inpU parse (normalizeBaseUrl (inpU "jira_base_url"))
        (r1 :: r2 :: rest) := by
    rw [hopU]
    simp [dispatchOperation]
  have hdT : dispatchOperation (inpT "operation") inpT parse
      (normalizeBaseUrl (inpT "jira_base_url")) (r1 :: r2 :: rest) =
      transitionIssue inpT (normalizeBaseUrl (inpT "jira_base_url"))
        (r1 :: r2 :: rest) := by
    rw [hopT]
    simp [dispatchOperation]
  have hrunU := run_dispatch_ok inpU parse (r1 :: r2 :: rest) _ _
    hurlU hmailU htokU (by rw [hopU]; decide) (hdU.trans hupair)
  have hrunT := run_dispatch_ok inpT parse (r1 :: r2 :: rest) _ _
    hurlT hmailT htokT (by rw [hopT]; decide) (hdT.trans htpair)
  refine ⟨⟨id, hid, by rw [hupair]⟩, ?_, ?_, ⟨id, hid, by rw [htpair]⟩, ?_, ?_⟩
  · rw [hrunU]
  · rw [hrunU]
    simp [successOutputs]
  · rw [hrunT]
  · rw [hrunT]
    simp [successOutputs]

/-- Witness for C10 (amended): a 404 GET with a non-null body still yields a
success run. -/
theorem get_readback_status_not_inspected_witness :
    ((sampleInputs "update_issue") "operation" = "update_issue" ∧
     (sampleInputs "transition_issue") "operation" = "transition_issue" ∧
     (⟨404, sampleIssueJson⟩ : HttpResponse).result ≠ Json.null) ∧
    (("status", Json.str "success") ∈
      (run (sampleInputs "update_issue") (failParser "x")
        [⟨204, Json.obj []⟩, ⟨404, sampleIssueJson⟩]).outputs ∧
     ("status", Json.str "success") ∈
      (run (sampleInputs "transition_issue") (failParser "x")
        [⟨204, Json.obj []⟩, ⟨404, sampleIssueJson⟩]).outputs) :=
  ⟨⟨by decide, by decide, fun h => by simp [sampleIssueJson] at h⟩,
   (get_readback_status_not_inspected (sampleInputs "update_issue")
      (sampleInputs "transition_issue") (failParser "x")
      ⟨204, Json.obj []⟩ ⟨404, sampleIssueJson⟩ [] []
      (by decide) (by decide) (fun h => by simp [sampleIssueJson] at h)
      (by decide) (by decide) (by decide) (by decide) (by decide) rfl
      (by decide) (by decide) (by decide) (by decide) (by decide) (by decide)).2.2.1,
   (get_readback_status_not_inspected (sampleInputs "update_issue")
      (sampleInputs "transition_issue") (failParser "x")
      ⟨204, Json.obj []⟩ ⟨404, sampleIssueJson⟩ [] []
      (by decide) (by decide) (fun h => by simp [sampleIssueJson] at h)
      (by decide) (by decide) (by decide) (by decide) (by decide) rfl
      (by decide) (by decide) (by decide) (by decide) (by decide) (by decide)).2.2.2.2.2⟩

/-- C6: for every operation, a first-response status outside [200,300) makes
the pipeline fail with a message carrying the status code and the serialized
response body, and the run reports `status = error`. -/
theorem remote_rejection_sets_error (inp : Inputs) (parse : JsonParser)
    (r : HttpResponse) (rest : List HttpResponse)
    (hurl : inp "jira_base_url" ≠ "") (hmail : inp "jira_email" ≠ "")
    (htok : inp "jira_api_token" ≠ "")
    (hst : r.statusCode < 200 ∨ 300 ≤ r.statusCode) :
    (∀ flds, inp "operation" = "create_issue" →
      inp "project_key" ≠ "" → inp "issue_type" ≠ "" → inp "summary" ≠ "" →
      mergeFieldsJson parse (inp "fields_json") (createIssueFields inp) = Except.ok flds →
      (run inp parse (r :: rest)).outputs = [("status", Json.str "error")] ∧
      (run inp parse (r :: rest)).failed =
        some ("Failed to create issue: " ++ toString r.statusCode ++ " " ++
          Json.stringify r.result)) ∧
    (∀ flds, inp "operation" = "update_issue" → inp "issue_key" ≠ "" →
      mergeFieldsJson parse (inp "fields_json") (updateInitialFields inp) = Except.ok flds →
      (run inp parse (r :: rest)).outputs = [("status", Json.str "error")] ∧
      (run inp parse (r :: rest)).failed =
        some ("Failed to update issue: " ++ toString r.statusCode ++ " " ++
          Json.stringify r.result)) ∧
    (inp "operation" = "transition_issue" → inp "issue_key" ≠ "" →
      inp "transition_id" ≠ "" →
      (run inp parse (r :: rest)).outputs = [("status", Json.str "error")] ∧
      (run inp parse (r :: rest)).failed =
        some ("Failed to transition issue: " ++ toString r.statusCode ++ " " ++
          Json.stringify r.result)) ∧
    (inp "operation" = "add_comment" → inp "issue_key" ≠ "" → inp "comment" ≠ "" →
      (run inp parse (r :: rest)).outputs = [("status", Json.str "error")] ∧
      (run inp parse (r :: rest)).failed =
        some ("Failed to add comment: " ++ toString r.statusCode ++ " " ++
          Json.stringify r.result)) ∧
    (inp "operation" = "get_issue" → inp "issue_key" ≠ "" →
      (run inp parse (r :: rest)).outputs = [("status", Json.str "error")] ∧
      (run inp parse (r :: rest)).failed =
        some ("Failed to get issue: " ++ toString r.statusCode ++ " " ++
          Json.stringify r.result)) ∧
    (inp "operation" = "get_project" → inp "project_key" ≠ "" →
      (run inp parse (r :: rest)).outputs = [("status", Json.str "error")] ∧
      (run inp parse (r :: rest)).failed =
        some ("Failed to get project: " ++ toString r.statusCode ++ " " ++
          Json.stringify r.result)) ∧
    (inp "operation" = "create_version" → inp "project_id" ≠ "" →
      inp "version_name" ≠ "" →
      (run inp parse (r :: rest)).outputs = [("status", Json.str "error")] ∧
      (run inp parse (r :: rest)).failed =
        some ("Failed to create version: " ++ toString r.statusCode ++ " " ++
          Json.stringify r.result)) := by
  have hbad := statusNotOk_of_out_of_range hst
  refine ⟨?_, ?_, ?_, ?_, ?_, ?_, ?_⟩
  · intro flds hop hpk hit hsum hmf
    have hpipe : createIssue inp parse (normalizeBaseUrl (inp "jira_base_url"))
        (r :: rest) =
        (Except.error ("Failed to create issue: " ++ toString r.statusCode ++ " " ++
          Json.stringify r.result),
         [⟨Method.post, normalizeBaseUrl (inp "jira_base_url") ++ "/rest/api/3/issue",
           some (Json.obj [("fields", Json.obj flds)]), defaultHeaders⟩]) := by
      simp [createIssue, getRequiredInput, hpk, hit, hsum, hmf,
        createIssueCall, takeResponse, hbad]
    have hd : dispatchOperation (inp "operation") inp parse
        (normalizeBaseUrl (inp "jira_base_url")) (r :: rest) =
        createIssue inp parse (normalizeBaseUrl (inp "jira_base_url")) (r :: rest) := by
      rw [hop]
      simp [dispatchOperation]
    have hrun := run_dispatch_error inp parse (r :: rest) _ _ hurl hmail htok
      (by rw [hop]; decide) (hd.trans hpipe)
    rw [hrun]
    exact ⟨rfl, rfl⟩
  · intro flds hop hik hmf
    have hpipe : updateIssue inp parse (normalizeBaseUrl (inp "jira_base_url"))
        (r :: rest) =
        (Except.error ("Failed to update issue: " ++ toString r.statusCode ++ " " ++
          Json.stringify r.result),
         [⟨Method.put, normalizeBaseUrl (inp "jira_base_url") ++ "/rest/api/3/issue/" ++
             inp "issue_key",
           some (Json.obj [("fields", Json.obj flds)]), defaultHeaders⟩]) := by
      simp [updateIssue, getRequiredInput, hik, hmf,
        updateIssueCall, takeResponse, hbad]
    have hd : dispatchOperation (inp "operation") inp parse
        (normalizeBaseUrl (inp "jira_base_url")) (r :: rest) =
        updateIssue inp parse (normalizeBaseUrl (inp "jira_base_url")) (r :: rest) := by
      rw [hop]
      simp [dispatchOperation]
    have hrun := run_dispatch_error inp parse (r :: rest) _ _ hurl hmail htok
      (by rw [hop]; decide) (hd.trans hpipe)
    rw [hrun]
    exact ⟨rfl, rfl⟩
  · intro hop hik htr
    have hpipe : transitionIssue inp (normalizeBaseUrl (inp "jira_base_url"))
        (r :: rest) =
        (Except.error ("Failed to transition issue: " ++ toString r.statusCode ++ " " ++
          Json.stringify r.result),
         [⟨Method.post, normalizeBaseUrl (inp "jira_base_url") ++ "/rest/api/3/issue/" ++
             inp "issue_key" ++ "/transitions",
           some (Json.obj [("transition", Json.obj [("id", Json.str (inp "transition_id"))])]),
           defaultHeaders⟩]) := by
      simp [transitionIssue, getRequiredInput, hik, htr, takeResponse, hbad]
    have hd : dispatchOperation (inp "operation") inp parse
        (normalizeBaseUrl (inp "jira_base_url")) (r :: rest) =
        transitionIssue inp (normalizeBaseUrl (inp "jira_base_url")) (r :: rest) := by
      rw [hop]
      simp [dispatchOperation]
    have hrun := run_dispatch_error inp parse (r :: rest) _ _ hurl hmail htok
      (by rw [hop]; decide) (hd.trans hpipe)
    rw [hrun]
    exact ⟨rfl, rfl⟩
  · intro hop hik hc
    have hpipe : addComment inp (normalizeBaseUrl (inp "jira_base_url"))
        (r :: rest) =
        (Except.error ("Failed to add comment: " ++ toString r.statusCode ++ " " ++
          Json.stringify r.result),
         [⟨Method.post, normalizeBaseUrl (inp "jira_base_url") ++ "/rest/api/3/issue/" ++
             inp "issue_key" ++ "/comment",
           some (commentBody (inp "comment")), defaultHeaders⟩]) := by
      simp [addComment, getRequiredInput, hik, hc, takeResponse, hbad]
    have hd : dispatchOperation (inp "operation") inp parse
        (normalizeBaseUrl (inp "jira_base_url")) (r :: rest) =
        addComment inp (normalizeBaseUrl (inp "jira_base_url")) (r :: rest) := by
      rw [hop]
      simp [dispatchOperation]
    have hrun := run_dispatch_error inp parse (r :: rest) _ _ hurl hmail htok
      (by rw [hop]; decide) (hd.trans hpipe)
    rw [hrun]
    exact ⟨rfl, rfl⟩
  · intro hop hik
    have hpipe : getIssue inp (normalizeBaseUrl (inp "jira_base_url"))
        (r :: rest) =
        (Except.error ("Failed to get issue: " ++ toString r.statusCode ++ " " ++
          Json.stringify r.result),
         [⟨Method.get, normalizeBaseUrl (inp "jira_base_url") ++ "/rest/api/3/issue/" ++
             inp "issue_key", none, defaultHeaders⟩]) := by
      simp [getIssue, getRequiredInput, hik, takeResponse, hbad]
    have hd : dispatchOperation (inp "operation") inp parse
        (normalizeBaseUrl (inp "jira_base_url")) (r :: rest) =
        getIssue inp (normalizeBaseUrl (inp "jira_base_url")) (r :: rest) := by
      rw [hop]
      simp [dispatchOperation]
    have hrun := run_dispatch_error inp parse (r :: rest) _ _ hurl hmail htok
      (by rw [hop]; decide) (hd.trans hpipe)
    rw [hrun]
    exact ⟨rfl, rfl⟩
  · intro hop hpk
    have hpipe : getProject inp (normalizeBaseUrl (inp "jira_base_url"))
        (r :: rest) =
        (Except.error ("Failed to get project: " ++ toString r.statusCode ++ " " ++
          Json.stringify r.result),
         [⟨Method.get, normalizeBaseUrl (inp "jira_base_url") ++ "/rest/api/3/project/" ++
             inp "project_key", none, defaultHeaders⟩]) := by
      simp [getProject, getRequiredInput, hpk, takeResponse, hbad]
    have hd : dispatchOperation (inp "operation") inp parse
        (normalizeBaseUrl (inp "jira_base_url")) (r :: rest) =
        getProject inp (normalizeBaseUrl (inp "jira_base_url")) (r :: rest) := by
      rw [hop]
      simp [dispatchOperation]
    have hrun := run_dispatch_error inp parse (r :: rest) _ _ hurl hmail htok
      (by rw [hop]; decide) (hd.trans hpipe)
    rw [hrun]
    exact ⟨rfl, rfl⟩
  · intro hop hpid hvn
    have hpipe : createVersion inp (normalizeBaseUrl (inp "jira_base_url"))
        (r :: rest) =
        (Except.error ("Failed to create version: " ++ toString r.statusCode ++ " " ++
          Json.stringify r.result),
         [⟨Method.post, normalizeBaseUrl (inp "jira_base_url") ++ "/rest/api/3/version",
           some (Json.obj (versionBody inp)), defaultHeaders⟩]) := by
      simp [createVersion, getRequiredInput, hpid, hvn, takeResponse, hbad]
    have hd : dispatchOperation (inp "operation") inp parse
        (normalizeBaseUrl (inp "jira_base_url")) (r :: rest) =
        createVersion inp (normalizeBaseUrl (inp "jira_base_url")) (r :: rest) := by
      rw [hop]
      simp [dispatchOperation]
    have hrun := run_dispatch_error inp parse (r :: rest) _ _ hurl hmail htok
      (by rw [hop]; decide) (hd.trans hpipe)
    rw [hrun]
    exact ⟨rfl, rfl⟩

/-- Witness for C6: a 400 rejection of `create_issue`. -/
theorem remote_rejection_sets_error_witness :
    ((400 : Nat) < 200 ∨ 300 ≤ (400 : Nat)) ∧
    ((run (sampleInputs "create_issue") (failParser "x")
        [⟨400, Json.obj []⟩]).outputs = [("status", Json.str "error")] ∧
     (run (sampleInputs "create_issue") (failParser "x")
        [⟨400, Json.obj []⟩]).failed =
       some ("Failed to create issue: " ++ toString (400 : Nat) ++ " " ++
         Json.stringify (Json.obj []))) :=
  ⟨by decide,
   (remote_rejection_sets_error (sampleInputs "create_issue") (failParser "x")
     ⟨400, Json.obj []⟩ [] (by decide) (by decide) (by decide) (by decide)).1
     (createIssueFields (sampleInputs "create_issue"))
     rfl (by decide) (by decide) (by decide) rfl⟩

/-- Counterexample to C8 as stated: a successful `update_issue` run whose
read-back GET body is an empty object emits no `issue_id` output, although
the claim says the four issue-returning operations emit both outputs. -/
theorem success_output_presence_counterexample :
    (run (sampleInputs "update_issue") (failParser "x") emptyGetClient).failed = none ∧
    (run (sampleInputs "update_issue") (failParser "x") emptyGetClient).outputs =
      [("status", Json.str "success"), ("issue_key", Json.str "PROJ-1"),
       ("response", Json.str "\x7b\x7d")] ∧
    (∀ v, ("issue_id", v) ∉
      (run (sampleInputs "update_issue") (failParser "x") emptyGetClient).outputs) := by
  refine ⟨rfl, rfl, ?_⟩
  intro v h
  rw [show (run (sampleInputs "update_issue") (failParser "x") emptyGetClient).outputs =
    [("status", Json.str "success"), ("issue_key", Json.str "PROJ-1"),
     ("response", Json.str "\x7b\x7d")] from rfl] at h
  simp at h

/-- C8 (amended): on the success path, `issue_key` (resp. `issue_id`) is set
iff the OperationResult carries a truthy value for it.  `get_project` and
`create_version` carry neither; `add_comment` carries a truthy `issueKey` and
no `issueId`; `update_issue`, `transition_issue` and `get_issue` always carry
a truthy `issueKey`, while their `issueId` — like both fields of
`create_issue` — is whatever the response body supplies, so it is emitted only
when that value is truthy. -/
theorem success_output_presence (inp : Inputs) (parse : JsonParser)
    (client : List HttpResponse) (res : OperationResult) (calls : List HttpRequest)
    (hurl : inp "jira_base_url" ≠ "") (hmail : inp "jira_email" ≠ "")
    (htok : inp "jira_api_token" ≠ "") (hope : inp "operation" ≠ "")
    (hd : dispatchOperation (inp "operation") inp parse
        (normalizeBaseUrl (inp "jira_base_url")) client = (Except.ok res, calls)) :
    ((∃ v, ("issue_key", v) ∈ (run inp parse client).outputs) ↔
      truthyOpt res.issueKey = true) ∧
    ((∃ v, ("issue_id", v) ∈ (run inp parse client).outputs) ↔
      truthyOpt res.issueId = true) ∧
    (∀ inp2 baseUrl2 client2 res2 calls2,
      getProject inp2 baseUrl2 client2 = (Except.ok res2, calls2) →
      res2.issueKey = none ∧ res2.issueId = none) ∧
    (∀ inp2 baseUrl2 client2 res2 calls2,
      createVersion inp2 baseUrl2 client2 = (Except.ok res2, calls2) →
      res2.issueKey = none ∧ res2.issueId = none) ∧
    (∀ inp2 baseUrl2 client2 res2 calls2,
      addComment inp2 baseUrl2 client2 = (Except.ok res2, calls2) →
      res2.issueId = none ∧ truthyOpt res2.issueKey = true) ∧
    (∀ inp2 parse2 baseUrl2 client2 res2 calls2,
      updateIssue inp2 parse2 baseUrl2 client2 = (Except.ok res2, calls2) →
      truthyOpt res2.issueKey = true) ∧
    (∀ inp2 baseUrl2 client2 res2 calls2,
      transitionIssue inp2 baseUrl2 client2 = (Except.ok res2, calls2) →
      truthyOpt res2.issueKey = true) ∧
    (∀ inp2 baseUrl2 client2 res2 calls2,
      getIssue inp2 baseUrl2 client2 = (Except.ok res2, calls2) →
      truthyOpt res2.issueKey = true) := by
  have hrun := run_dispatch_ok inp parse client res calls hurl hmail htok hope hd
  refine ⟨?_, ?_, ?_, ?_, ?_, ?_, ?_, ?_⟩
  · rw [hrun]
    constructor
    · rintro ⟨v, hv⟩
      exact ((issue_key_mem_successOutputs res v).mp hv).1
    · intro ht
      exact ⟨res.issueKey.getD Json.null,
        (issue_key_mem_successOutputs res _).mpr ⟨ht, rfl⟩⟩
  · rw [hrun]
    constructor
    · rintro ⟨v, hv⟩
      exact ((issue_id_mem_successOutputs res v).mp hv).1
    · intro ht
      exact ⟨res.issueId.getD Json.null,
        (issue_id_mem_successOutputs res _).mpr ⟨ht, rfl⟩⟩
  · intro inp2 baseUrl2 client2 res2 calls2 h
    simp only [getProject] at h
    split at h
    · simp at h
    · split at h
      · simp at h
      · split at h
        · simp at h
        · simp only [Prod.mk.injEq, Except.ok.injEq] at h
          obtain ⟨h1, -⟩ := h
          rw [← h1]
          exact ⟨rfl, rfl⟩
  · intro inp2 baseUrl2 client2 res2 calls2 h
    simp only [createVersion] at h
    split at h
    · split at h
      · simp at h
      · split at h
        · simp at h
        · simp only [Prod.mk.injEq, Except.ok.injEq] at h
          obtain ⟨h1, -⟩ := h
          rw [← h1]
          exact ⟨rfl, rfl⟩
    · simp at h
    · simp at h
  · intro inp2 baseUrl2 client2 res2 calls2 h
    simp only [addComment] at h
    split at h
    · rename_i issueKey comment heq1 heq2
      split at h
      · simp at h
      · split at h
        · simp at h
        · simp only [Prod.mk.injEq, Except.ok.injEq] at h
          obtain ⟨h1, -⟩ := h
          rw [← h1]
          obtain ⟨hval, hne⟩ := getRequiredInput_ok heq1
          subst hval
          exact ⟨rfl, truthyOpt_str hne⟩
    · simp at h
    · simp at h
  · intro inp2 parse2 baseUrl2 client2 res2 calls2 h
    simp only [updateIssue] at h
    split at h
    · simp at h
    · rename_i issueKey heq1
      split at h
      · simp at h
      · simp only [updateIssueCall] at h
        split at h
        · simp at h
        · split at h
          · simp at h
          · split at h
            · simp at h
            · split at h
              · simp at h
              · simp only [Prod.mk.injEq, Except.ok.injEq] at h
                obtain ⟨h1, -⟩ := h
                rw [← h1]
                obtain ⟨hval, hne⟩ := getRequiredInput_ok heq1
                subst hval
                exact truthyOpt_str hne
  · intro inp2 baseUrl2 client2 res2 calls2 h
    simp only [transitionIssue] at h
    split at h
    · rename_i issueKey transitionId heq1 heq2
      split at h
      · simp at h
      · split at h
        · simp at h
        · split at h
          · simp at h
          · split at h
            · simp at h
            · simp only [Prod.mk.injEq, Except.ok.injEq] at h
              obtain ⟨h1, -⟩ := h
              rw [← h1]
              obtain ⟨hval, hne⟩ := getRequiredInput_ok heq1
              subst hval
              exact truthyOpt_str hne
    · simp at h
    · simp at h
  · intro inp2 baseUrl2 client2 res2 calls2 h
    simp only [getIssue] at h
    split at h
    · simp at h
    · rename_i issueKey heq1
      split at h
      · simp at h
      · split at h
        · simp at h
        · split at h
          · simp at h
          · simp only [Prod.mk.injEq, Except.ok.injEq] at h
            obtain ⟨h1, -⟩ := h
            rw [← h1]
            obtain ⟨hval, hne⟩ := getRequiredInput_ok heq1
            subst hval
            exact truthyOpt_str hne

/-- Witness for C8 (amended): a successful `get_issue` run emitting both
outputs. -/
theorem success_output_presence_witness :
    (sampleInputs "get_issue") "jira_base_url" ≠ "" ∧
    ((∃ v, ("issue_key", v) ∈
        (run (sampleInputs "get_issue") (failParser "x")
          [⟨200, sampleIssueJson⟩]).outputs) ↔
      truthyOpt (some (Json.str "PROJ-1")) = true) :=
  ⟨by decide,
   (success_output_presence (sampleInputs "get_issue") (failParser "x")
     [⟨200, sampleIssueJson⟩]
     ⟨some (Json.str "PROJ-1"), some (Json.str "10002"), sampleIssueJson⟩
     [⟨Method.get,
       "https://example.atlassian.net" ++ "/rest/api/3/issue/" ++ "PROJ-1",
       none, defaultHeaders⟩]
     (by decide) (by decide) (by decide) (by decide) (by rfl)).1⟩

end JiraAction
